import Mathlib

/-!
Verification of the shared-memory buffer and buffer-pool module (`buffer.c`)
of wayvnc.

The module is embedded shallowly:
* fourcc codes and the two fixed format-translation tables are embedded with
  their concrete numeric values from `drm_fourcc.h`, `wayland-client` and
  `pixman.h`;
* `wv_buffer_create` is embedded as a function of an explicit environment
  `Env` supplying the outcome of each external primitive (`calloc`,
  `shm_alloc_fd`, `mmap`, `pixman_image_create_bits`, `wl_shm_create_pool`,
  `wl_shm_pool_create_buffer`), and it returns both its result and the exact
  trace of resource events the C control flow performs;
* the pool is a record with the four target-shape fields and the idle queue
  as a list (head = `TAILQ_FIRST`, append = `TAILQ_INSERT_TAIL`); pool
  operations additionally return the list of buffers they destroy.

`int` values are embedded as `Int`; the one arithmetic operation the code
performs, `self->size = height * stride`, is embedded with two's-complement
32-bit wrap-around (`wrap32`), matching machine signed-integer arithmetic.
-/

/-- Two's-complement wrap-around of a signed 32-bit machine multiplication
or value: the representative of `x` modulo `2^32` lying in
`[-2^31, 2^31)`. -/
def wrap32 (x : Int) : Int := (x + 2 ^ 31) % 2 ^ 32 - 2 ^ 31

/-! Fourcc codes from `drm_fourcc.h` (little-endian byte codes). -/

def DRM_FORMAT_ARGB8888 : Nat := 0x34325241
def DRM_FORMAT_XRGB8888 : Nat := 0x34325258
def DRM_FORMAT_ABGR8888 : Nat := 0x34324241
def DRM_FORMAT_XBGR8888 : Nat := 0x34324258
def DRM_FORMAT_RGBA8888 : Nat := 0x34324152
def DRM_FORMAT_RGBX8888 : Nat := 0x34325852
def DRM_FORMAT_BGRA8888 : Nat := 0x34324142
def DRM_FORMAT_BGRX8888 : Nat := 0x34325842

/-! Wayland `wl_shm_format` constants: only the two legacy codes differ from
the fourcc values; all other members of the enumeration equal the fourcc. -/

def WL_SHM_FORMAT_ARGB8888 : Nat := 0
def WL_SHM_FORMAT_XRGB8888 : Nat := 1

/-! Pixman format codes, `PIXMAN_FORMAT(bpp, type, a, r, g, b)`. -/

def PIXMAN_a8r8g8b8 : Nat := 0x20028888
def PIXMAN_x8r8g8b8 : Nat := 0x20020888
def PIXMAN_a8b8g8r8 : Nat := 0x20038888
def PIXMAN_x8b8g8r8 : Nat := 0x20030888
def PIXMAN_r8g8b8a8 : Nat := 0x20098888
def PIXMAN_r8g8b8x8 : Nat := 0x20090888
def PIXMAN_b8g8r8a8 : Nat := 0x20088888
def PIXMAN_b8g8r8x8 : Nat := 0x20080888

/-- Embedding of `fourcc_to_wl_shm`: the two legacy wayland constants, raw
numeric passthrough for everything else. -/
def fourcc_to_wl_shm (i : Nat) : Nat :=
  if i = DRM_FORMAT_ARGB8888 then WL_SHM_FORMAT_ARGB8888
  else if i = DRM_FORMAT_XRGB8888 then WL_SHM_FORMAT_XRGB8888
  else i

/-- Embedding of `fourcc_to_pixman_fmt`: the eight-entry translation table,
`none` for every other fourcc (the C function returns `false` without
writing `*dst`). -/
def fourcc_to_pixman_fmt (src : Nat) : Option Nat :=
  if src = DRM_FORMAT_ARGB8888 then some PIXMAN_a8r8g8b8
  else if src = DRM_FORMAT_XRGB8888 then some PIXMAN_x8r8g8b8
  else if src = DRM_FORMAT_ABGR8888 then some PIXMAN_a8b8g8r8
  else if src = DRM_FORMAT_XBGR8888 then some PIXMAN_x8b8g8r8
  else if src = DRM_FORMAT_RGBA8888 then some PIXMAN_r8g8b8a8
  else if src = DRM_FORMAT_RGBX8888 then some PIXMAN_r8g8b8x8
  else if src = DRM_FORMAT_BGRA8888 then some PIXMAN_b8g8r8a8
  else if src = DRM_FORMAT_BGRX8888 then some PIXMAN_b8g8r8x8
  else none

/-- The eight fourcc codes that have an entry in the pixman translation
table. -/
def supportedFourccs : List Nat :=
  [DRM_FORMAT_ARGB8888, DRM_FORMAT_XRGB8888, DRM_FORMAT_ABGR8888,
   DRM_FORMAT_XBGR8888, DRM_FORMAT_RGBA8888, DRM_FORMAT_RGBX8888,
   DRM_FORMAT_BGRA8888, DRM_FORMAT_BGRX8888]

/-- Resource events performed by `wv_buffer_create`, in program order. -/
inductive Ev where
  | calloc
  | free
  | shm_alloc (size : Int)
  | mmap
  | munmap
  | pixman_create (fmt : Nat)
  | pixman_unref
  | wl_pool_create
  | wl_pool_destroy
  | wl_buf_create (fmt : Nat)
  | close_fd (fd : Int)
deriving DecidableEq

/-- The value POSIX `mmap` returns to signal a mapping failure:
`MAP_FAILED`, i.e. `(void*)-1`, which on a 64-bit machine is the address
`2^64 - 1`. A failing `mmap` never returns `NULL` (`0`). -/
def MAP_FAILED : Nat := 2 ^ 64 - 1

/-- Outcomes of the external primitives consumed by `wv_buffer_create`:
whether `calloc` succeeds, the file descriptor returned by
`shm_alloc_fd` for a given size (negative means failure), the address
returned by `mmap` (a real mapping failure yields `MAP_FAILED`, never
`NULL`; the code nonetheless tests the result against `NULL`, which the
embedding mirrors), and the handles returned by
`pixman_image_create_bits`, `wl_shm_create_pool` and
`wl_shm_pool_create_buffer` (`0` means `NULL`, i.e. failure). -/
structure Env where
  calloc_ok : Bool
  shm_fd : Int → Int
  mmap_addr : Nat
  pixman_image : Nat
  wl_pool : Nat
  wl_buf : Nat

/-- Embedding of `struct wv_buffer`: geometry, fourcc format, byte size, and
the three owned resources (`pixels` mapping address, pixman `image` handle,
protocol `wl_buffer` handle). -/
structure WvBuffer where
  width : Int
  height : Int
  stride : Int
  format : Nat
  size : Int
  pixels : Nat
  image : Nat
  wl_buffer : Nat
deriving DecidableEq

/-- Embedding of `wv_buffer_create`. Returns the constructed buffer (or
`none` on failure) together with the exact sequence of resource events the
C control flow performs, including the rollback chain of each `goto`
failure label. -/
def wv_buffer_create (env : Env) (width height stride : Int) (fourcc : Nat) :
    Option WvBuffer × List Ev :=
  match fourcc_to_pixman_fmt fourcc with
  | none => (none, [])
  | some pixman_fmt =>
    if env.calloc_ok = false then
      (none, [.calloc])
    else
      let size := wrap32 (height * stride)
      let fd := env.shm_fd size
      if fd < 0 then
        (none, [.calloc, .shm_alloc size, .free])
      else if env.mmap_addr = 0 then
        (none, [.calloc, .shm_alloc size, .mmap, .close_fd fd, .free])
      else if env.pixman_image = 0 then
        (none, [.calloc, .shm_alloc size, .mmap, .pixman_create pixman_fmt,
                .munmap, .close_fd fd, .free])
      else if env.wl_pool = 0 then
        (none, [.calloc, .shm_alloc size, .mmap, .pixman_create pixman_fmt,
                .wl_pool_create, .pixman_unref, .munmap, .close_fd fd, .free])
      else if env.wl_buf = 0 then
        (none, [.calloc, .shm_alloc size, .mmap, .pixman_create pixman_fmt,
                .wl_pool_create, .wl_buf_create (fourcc_to_wl_shm fourcc),
                .wl_pool_destroy, .pixman_unref, .munmap, .close_fd fd, .free])
      else
        (some { width := width, height := height, stride := stride,
                format := fourcc, size := size, pixels := env.mmap_addr,
                image := env.pixman_image, wl_buffer := env.wl_buf },
         [.calloc, .shm_alloc size, .mmap, .pixman_create pixman_fmt,
          .wl_pool_create, .wl_buf_create (fourcc_to_wl_shm fourcc),
          .wl_pool_destroy, .close_fd fd])

/-- Embedding of `struct wv_buffer_pool`: the current target shape and the
idle queue. The list head is `TAILQ_FIRST`; `TAILQ_INSERT_TAIL` appends at
the end. -/
structure WvBufferPool where
  width : Int
  height : Int
  stride : Int
  format : Nat
  queue : List WvBuffer
deriving DecidableEq

/-- Embedding of `wv_buffer_pool_create` (with the pool record's `calloc`
assumed to succeed, as the spec's pool model does): empty queue, shape
stored verbatim. -/
def wv_buffer_pool_create (width height stride : Int) (format : Nat) :
    WvBufferPool :=
  { width := width, height := height, stride := stride, format := format,
    queue := [] }

/-- Embedding of `wv_buffer_pool_clear`: destroys every queued buffer, in
queue order. Returns the new pool state and the destroyed buffers. -/
def wv_buffer_pool_clear (pool : WvBufferPool) : WvBufferPool × List WvBuffer :=
  ({ pool with queue := [] }, pool.queue)

/-- Embedding of `wv_buffer_pool_resize`: clear the queue iff any of the four
shape fields changes, then unconditionally overwrite the stored shape.
Returns the new pool state and the destroyed buffers. -/
def wv_buffer_pool_resize (pool : WvBufferPool) (width height stride : Int)
    (format : Nat) : WvBufferPool × List WvBuffer :=
  let step :=
    if pool.width ≠ width ∨ pool.height ≠ height ∨ pool.stride ≠ stride
        ∨ pool.format ≠ format then
      wv_buffer_pool_clear pool
    else
      (pool, [])
  ({ step.1 with
      width := width, height := height, stride := stride,
      format := format }, step.2)

/-- The shape comparison performed by `wv_buffer_pool_release` and asserted
by `wv_buffer_pool_acquire`: the buffer's geometry and format equal the
pool's current target shape. -/
def bufferMatchesPool (pool : WvBufferPool) (buffer : WvBuffer) : Prop :=
  pool.width = buffer.width ∧ pool.height = buffer.height ∧
    pool.stride = buffer.stride ∧ pool.format = buffer.format

instance (pool : WvBufferPool) (buffer : WvBuffer) :
    Decidable (bufferMatchesPool pool buffer) := by
  unfold bufferMatchesPool; exact inferInstance

/-- Embedding of `wv_buffer_pool_acquire`: pop the queue head if the queue
is non-empty, otherwise construct a new buffer with the pool's current
shape. Returns the result, the new pool state, and the construction's
resource-event trace (empty when a queued buffer is reused). -/
def wv_buffer_pool_acquire (env : Env) (pool : WvBufferPool) :
    Option WvBuffer × WvBufferPool × List Ev :=
  match pool.queue with
  | buffer :: rest => (some buffer, { pool with queue := rest }, [])
  | [] =>
      ((wv_buffer_create env pool.width pool.height pool.stride pool.format).1,
       pool,
       (wv_buffer_create env pool.width pool.height pool.stride pool.format).2)

/-- Embedding of `wv_buffer_pool_release`: append the buffer at the tail of
the idle queue if its shape matches the current target shape, otherwise
destroy it. Returns the new pool state and the destroyed buffers. The
operation is total: it never fails. -/
def wv_buffer_pool_release (pool : WvBufferPool) (buffer : WvBuffer) :
    WvBufferPool × List WvBuffer :=
  if bufferMatchesPool pool buffer then
    ({ pool with queue := pool.queue ++ [buffer] }, [])
  else
    (pool, [buffer])

/-- Pool states reachable from `wv_buffer_pool_create` by any sequence of
acquire, release and resize operations. -/
inductive Reachable : WvBufferPool → Prop
  | create (width height stride : Int) (format : Nat) :
      Reachable (wv_buffer_pool_create width height stride format)
  | acquire (env : Env) (pool : WvBufferPool) : Reachable pool →
      Reachable (wv_buffer_pool_acquire env pool).2.1
  | release (pool : WvBufferPool) (buffer : WvBuffer) : Reachable pool →
      Reachable (wv_buffer_pool_release pool buffer).1
  | resize (pool : WvBufferPool) (width height stride : Int) (format : Nat) :
      Reachable pool →
      Reachable (wv_buffer_pool_resize pool width height stride format).1

/-! Concrete instances used by witnesses and counterexamples. -/

/-- Environment in which every external primitive succeeds. -/
def envAllOk : Env :=
  { calloc_ok := true, shm_fd := fun _ => 3, mmap_addr := 100,
    pixman_image := 11, wl_pool := 21, wl_buf := 31 }

/-- A buffer of shape (640, 480, 2560, ARGB8888). -/
def bufA : WvBuffer :=
  { width := 640, height := 480, stride := 2560, format := DRM_FORMAT_ARGB8888,
    size := 1228800, pixels := 1, image := 11, wl_buffer := 21 }

/-- A second distinct buffer of the same shape as `bufA`. -/
def bufB : WvBuffer :=
  { width := 640, height := 480, stride := 2560, format := DRM_FORMAT_ARGB8888,
    size := 1228800, pixels := 2, image := 12, wl_buffer := 22 }

/-- A third distinct buffer of the same shape as `bufA`. -/
def bufC : WvBuffer :=
  { width := 640, height := 480, stride := 2560, format := DRM_FORMAT_ARGB8888,
    size := 1228800, pixels := 3, image := 13, wl_buffer := 23 }

/-! Helper lemmas shared by several results. -/

/-- On the representable range of a signed 32-bit integer, `wrap32` is the
identity. -/
theorem wrap32_eq_self (x : Int) (h1 : -(2 ^ 31) ≤ x) (h2 : x < 2 ^ 31) :
    wrap32 x = x := by
  unfold wrap32
  omega

/-- A fourcc outside the eight-entry table has no pixman translation. -/
theorem pixman_fmt_none_of_unsupported (fourcc : Nat)
    (h : fourcc ∉ supportedFourccs) : fourcc_to_pixman_fmt fourcc = none := by
  simp [supportedFourccs] at h
  obtain ⟨h1, h2, h3, h4, h5, h6, h7, h8⟩ := h
  simp [fourcc_to_pixman_fmt, h1, h2, h3, h4, h5, h6, h7, h8]

/-- Releasing a shape-matching buffer appends it at the queue tail and
destroys nothing. -/
theorem release_matching_eq (pool : WvBufferPool) (buffer : WvBuffer)
    (h : bufferMatchesPool pool buffer) :
    wv_buffer_pool_release pool buffer =
      ({ pool with queue := pool.queue ++ [buffer] }, []) := by
  simp [wv_buffer_pool_release, h]

/-- Acquiring from a non-empty queue pops the head and performs no resource
event. -/
theorem acquire_cons_eq (env : Env) (pool : WvBufferPool) (b : WvBuffer)
    (rest : List WvBuffer) (h : pool.queue = b :: rest) :
    wv_buffer_pool_acquire env pool =
      (some b, { pool with queue := rest }, []) := by
  simp [wv_buffer_pool_acquire, h]

/-- Shape matching only looks at the pool's shape fields, not its queue. -/
theorem bufferMatchesPool_update_queue (pool : WvBufferPool)
    (q : List WvBuffer) (b : WvBuffer) :
    bufferMatchesPool { pool with queue := q } b ↔ bufferMatchesPool pool b := by
  simp [bufferMatchesPool]

/-- **C1.** Pool idle-queue shape invariant: in every pool state reachable
from `wv_buffer_pool_create` by any sequence of acquire, release and resize
operations, every buffer in the idle queue matches the pool's current
target shape exactly. In particular the shape assertion performed by
`wv_buffer_pool_acquire` on the queue head holds whenever the queue is
non-empty. -/
theorem pool_idle_queue_shape_invariant (pool : WvBufferPool)
    (h : Reachable pool) :
    ∀ buffer ∈ pool.queue, bufferMatchesPool pool buffer := by
  induction h with
  | create w hgt s f =>
      intro b hb
      simp [wv_buffer_pool_create] at hb
  | acquire env p hp ih =>
      intro b hb
      cases hq : p.queue with
      | nil =>
          simp [wv_buffer_pool_acquire, hq] at hb
      | cons hd tl =>
          simp only [wv_buffer_pool_acquire, hq] at hb ⊢
          have hmem : b ∈ p.queue := by
            rw [hq]; exact List.mem_cons_of_mem _ hb
          have hm := ih b hmem
          simpa [bufferMatchesPool] using hm
  | release p buffer hp ih =>
      intro b hb
      by_cases hm : bufferMatchesPool p buffer
      · simp only [wv_buffer_pool_release, if_pos hm] at hb ⊢
        rcases List.mem_append.mp hb with h1 | h2
        · have := ih b h1
          simpa [bufferMatchesPool] using this
        · have hbb : b = buffer := by simpa using h2
          subst hbb
          simpa [bufferMatchesPool] using hm
      · simp only [wv_buffer_pool_release, if_neg hm] at hb ⊢
        exact ih b hb
  | resize p w hgt s f hp ih =>
      intro b hb
      by_cases hc : p.width ≠ w ∨ p.height ≠ hgt ∨ p.stride ≠ s ∨ p.format ≠ f
      · simp [wv_buffer_pool_resize, wv_buffer_pool_clear, hc] at hb
      · push_neg at hc
        obtain ⟨e1, e2, e3, e4⟩ := hc
        simp only [wv_buffer_pool_resize, wv_buffer_pool_clear, e1, e2, e3,
          e4] at hb ⊢
        simp at hb ⊢
        have := ih b hb
        unfold bufferMatchesPool at this ⊢
        rw [← e1, ← e2, ← e3, ← e4]
        simpa using this

/-- Witness for C1: a concrete reachable pool whose queue holds `bufA`. -/
theorem pool_idle_queue_shape_invariant_witness :
    bufferMatchesPool
      (wv_buffer_pool_release
        (wv_buffer_pool_create 640 480 2560 DRM_FORMAT_ARGB8888) bufA).1
      bufA :=
  pool_idle_queue_shape_invariant _
    (Reachable.release _ bufA
      (Reachable.create 640 480 2560 DRM_FORMAT_ARGB8888))
    bufA (by decide)

/-- **C2.** A fourcc with no entry in the eight-entry pixman translation
table makes `wv_buffer_create` fail immediately: the result is `none`, the
resource-event trace is empty, and in particular the shared-memory
allocation primitive is never invoked. -/
theorem unsupported_format_fails_without_alloc (env : Env)
    (width height stride : Int) (fourcc : Nat)
    (h : fourcc ∉ supportedFourccs) :
    (wv_buffer_create env width height stride fourcc).1 = none ∧
    (wv_buffer_create env width height stride fourcc).2 = [] ∧
    ∀ size, Ev.shm_alloc size ∉ (wv_buffer_create env width height stride fourcc).2 := by
  have hp := pixman_fmt_none_of_unsupported fourcc h
  simp [wv_buffer_create, hp]

/-- Witness for C2 at the unsupported fourcc `0`. -/
theorem unsupported_format_fails_without_alloc_witness :
    (wv_buffer_create envAllOk 640 480 2560 0).1 = none ∧
    (wv_buffer_create envAllOk 640 480 2560 0).2 = [] ∧
    ∀ size, Ev.shm_alloc size ∉ (wv_buffer_create envAllOk 640 480 2560 0).2 :=
  unsupported_format_fails_without_alloc envAllOk 640 480 2560 0 (by decide)

/-- **C3.** Acquiring from a pool whose idle queue is empty, when the
construction succeeds, returns a buffer whose width, height, stride and
format are exactly the pool's target shape and whose size is
`height * stride` (stated on the representable range of the 32-bit signed
multiplication the code performs). -/
theorem acquire_empty_returns_target_shape (env : Env) (pool : WvBufferPool)
    (buffer : WvBuffer) (hq : pool.queue = [])
    (hrange : -(2 ^ 31) ≤ pool.height * pool.stride ∧
              pool.height * pool.stride < 2 ^ 31)
    (hs : (wv_buffer_pool_acquire env pool).1 = some buffer) :
    buffer.width = pool.width ∧ buffer.height = pool.height ∧
    buffer.stride = pool.stride ∧ buffer.format = pool.format ∧
    buffer.size = pool.height * pool.stride := by
  simp only [wv_buffer_pool_acquire, hq] at hs
  unfold wv_buffer_create at hs
  cases hp : fourcc_to_pixman_fmt pool.format with
  | none => rw [hp] at hs; simp at hs
  | some pf =>
      rw [hp] at hs
      simp only at hs
      split_ifs at hs with h1 h2 h3 h4 h5 h6
      all_goals simp_all
      rw [← hs]
      simp [wrap32_eq_self _ hrange.1 hrange.2]

/-- The buffer `envAllOk` construction yields for shape
(640, 480, 2560, ARGB8888). -/
def bufNew : WvBuffer :=
  { width := 640, height := 480, stride := 2560, format := DRM_FORMAT_ARGB8888,
    size := 1228800, pixels := 100, image := 11, wl_buffer := 31 }

/-- Witness for C3: acquiring from a freshly created (empty) pool of shape
(640, 480, 2560, ARGB8888) under `envAllOk`. -/
theorem acquire_empty_returns_target_shape_witness :
    bufNew.width = (wv_buffer_pool_create 640 480 2560 DRM_FORMAT_ARGB8888).width ∧
    bufNew.height = (wv_buffer_pool_create 640 480 2560 DRM_FORMAT_ARGB8888).height ∧
    bufNew.stride = (wv_buffer_pool_create 640 480 2560 DRM_FORMAT_ARGB8888).stride ∧
    bufNew.format = (wv_buffer_pool_create 640 480 2560 DRM_FORMAT_ARGB8888).format ∧
    bufNew.size = (wv_buffer_pool_create 640 480 2560 DRM_FORMAT_ARGB8888).height *
      (wv_buffer_pool_create 640 480 2560 DRM_FORMAT_ARGB8888).stride :=
  acquire_empty_returns_target_shape envAllOk
    (wv_buffer_pool_create 640 480 2560 DRM_FORMAT_ARGB8888) bufNew
    (by decide) (by decide) (by decide)

/-- A pool of shape (640, 480, 2560, ARGB8888) whose idle queue already
holds `bufC`. It is reachable: create the pool, then release `bufC`. -/
def poolWithC : WvBufferPool :=
  { width := 640, height := 480, stride := 2560, format := DRM_FORMAT_ARGB8888,
    queue := [bufC] }

/-- Counterexample to **C4** as stated: the claim quantifies over *every*
pool, but on a pool whose idle queue already holds a matching buffer
`bufC`, releasing `bufA` then `bufB` and acquiring returns `bufC`, not
`bufA` — the head of the queue is the oldest release overall, not the first
of the two just released. -/
theorem fifo_claim_counterexample :
    bufferMatchesPool poolWithC bufA ∧ bufferMatchesPool poolWithC bufB ∧
    bufA ≠ bufC ∧
    (wv_buffer_pool_acquire envAllOk
      (wv_buffer_pool_release
        (wv_buffer_pool_release poolWithC bufA).1 bufB).1).1 = some bufC ∧
    (wv_buffer_pool_acquire envAllOk
      (wv_buffer_pool_release
        (wv_buffer_pool_release poolWithC bufA).1 bufB).1).1 ≠ some bufA := by
  exact ⟨by decide, by decide, by decide, by decide, by decide⟩

/-- **C4 (amended).** FIFO reuse on a pool whose idle queue is empty:
releasing matching buffers `b1` then `b2` and acquiring twice returns
exactly the instances `b1` then `b2`, with an empty construction trace
both times (no new construction), leaving the queue empty. -/
theorem fifo_reuse_from_empty (env : Env) (pool : WvBufferPool)
    (b1 b2 : WvBuffer) (hq : pool.queue = [])
    (h1 : bufferMatchesPool pool b1) (h2 : bufferMatchesPool pool b2) :
    (wv_buffer_pool_acquire env
      (wv_buffer_pool_release (wv_buffer_pool_release pool b1).1 b2).1).1 =
        some b1 ∧
    (wv_buffer_pool_acquire env
      (wv_buffer_pool_release (wv_buffer_pool_release pool b1).1 b2).1).2.2 =
        [] ∧
    (wv_buffer_pool_acquire env
      (wv_buffer_pool_acquire env
        (wv_buffer_pool_release
          (wv_buffer_pool_release pool b1).1 b2).1).2.1).1 = some b2 ∧
    (wv_buffer_pool_acquire env
      (wv_buffer_pool_acquire env
        (wv_buffer_pool_release
          (wv_buffer_pool_release pool b1).1 b2).1).2.1).2.2 = [] ∧
    (wv_buffer_pool_acquire env
      (wv_buffer_pool_acquire env
        (wv_buffer_pool_release
          (wv_buffer_pool_release pool b1).1 b2).1).2.1).2.1.queue = [] := by
  have e1 : (wv_buffer_pool_release pool b1).1 =
      { pool with queue := pool.queue ++ [b1] } := by
    rw [release_matching_eq pool b1 h1]
  have h2' : bufferMatchesPool { pool with queue := pool.queue ++ [b1] } b2 :=
    (bufferMatchesPool_update_queue pool _ b2).mpr h2
  have e2 : (wv_buffer_pool_release (wv_buffer_pool_release pool b1).1 b2).1 =
      { pool with queue := pool.queue ++ [b1] ++ [b2] } := by
    rw [e1, release_matching_eq _ b2 h2']
  have eq2 : ({ pool with queue := pool.queue ++ [b1] ++ [b2] } :
      WvBufferPool).queue = b1 :: [b2] := by
    rw [hq]; rfl
  have e3 := acquire_cons_eq env _ b1 [b2] eq2
  rw [e2, e3]
  have eq3 : ({ { pool with queue := pool.queue ++ [b1] ++ [b2] } with
      queue := [b2] } : WvBufferPool).queue = b2 :: [] := rfl
  have e4 := acquire_cons_eq env _ b2 [] eq3
  rw [e4]
  exact ⟨rfl, rfl, rfl, rfl, rfl⟩

/-- Witness for C4 (amended): concrete freshly-created pool with `bufA`,
`bufB`. -/
theorem fifo_reuse_from_empty_witness :
    (wv_buffer_pool_acquire envAllOk
      (wv_buffer_pool_release
        (wv_buffer_pool_release
          (wv_buffer_pool_create 640 480 2560 DRM_FORMAT_ARGB8888)
          bufA).1 bufB).1).1 = some bufA ∧
    (wv_buffer_pool_acquire envAllOk
      (wv_buffer_pool_release
        (wv_buffer_pool_release
          (wv_buffer_pool_create 640 480 2560 DRM_FORMAT_ARGB8888)
          bufA).1 bufB).1).2.2 = [] ∧
    (wv_buffer_pool_acquire envAllOk
      (wv_buffer_pool_acquire envAllOk
        (wv_buffer_pool_release
          (wv_buffer_pool_release
            (wv_buffer_pool_create 640 480 2560 DRM_FORMAT_ARGB8888)
            bufA).1 bufB).1).2.1).1 = some bufB ∧
    (wv_buffer_pool_acquire envAllOk
      (wv_buffer_pool_acquire envAllOk
        (wv_buffer_pool_release
          (wv_buffer_pool_release
            (wv_buffer_pool_create 640 480 2560 DRM_FORMAT_ARGB8888)
            bufA).1 bufB).1).2.1).2.2 = [] ∧
    (wv_buffer_pool_acquire envAllOk
      (wv_buffer_pool_acquire envAllOk
        (wv_buffer_pool_release
          (wv_buffer_pool_release
            (wv_buffer_pool_create 640 480 2560 DRM_FORMAT_ARGB8888)
            bufA).1 bufB).1).2.1).2.1.queue = [] :=
  fifo_reuse_from_empty envAllOk
    (wv_buffer_pool_create 640 480 2560 DRM_FORMAT_ARGB8888) bufA bufB
    (by decide) (by decide) (by decide)

/-- **C5.** Resize clears the idle queue (destroying exactly the queued
buffers) iff any of the four shape fields changes, leaves the queue
untouched when all four are equal, and unconditionally overwrites the
stored target shape. -/
theorem resize_clears_iff_shape_changes (pool : WvBufferPool)
    (width height stride : Int) (format : Nat) :
    ((pool.width = width ∧ pool.height = height ∧ pool.stride = stride ∧
        pool.format = format) →
      (wv_buffer_pool_resize pool width height stride format).1.queue =
          pool.queue ∧
      (wv_buffer_pool_resize pool width height stride format).2 = []) ∧
    (¬(pool.width = width ∧ pool.height = height ∧ pool.stride = stride ∧
        pool.format = format) →
      (wv_buffer_pool_resize pool width height stride format).1.queue = [] ∧
      (wv_buffer_pool_resize pool width height stride format).2 =
          pool.queue) ∧
    (wv_buffer_pool_resize pool width height stride format).1.width = width ∧
    (wv_buffer_pool_resize pool width height stride format).1.height = height ∧
    (wv_buffer_pool_resize pool width height stride format).1.stride = stride ∧
    (wv_buffer_pool_resize pool width height stride format).1.format = format := by
  by_cases hc : pool.width = width ∧ pool.height = height ∧
      pool.stride = stride ∧ pool.format = format
  · obtain ⟨e1, e2, e3, e4⟩ := hc
    refine ⟨fun _ => ?_, fun hn => absurd ⟨e1, e2, e3, e4⟩ hn, ?_, ?_, ?_, ?_⟩
    all_goals simp [wv_buffer_pool_resize, wv_buffer_pool_clear, e1, e2, e3, e4]
  · have hd : pool.width ≠ width ∨ pool.height ≠ height ∨
        pool.stride ≠ stride ∨ pool.format ≠ format := by tauto
    refine ⟨fun h => absurd h hc, fun _ => ⟨?_, ?_⟩, ?_, ?_, ?_, ?_⟩
    all_goals simp [wv_buffer_pool_resize, wv_buffer_pool_clear, hd]

/-- Witness for C5: resizing `poolWithC` to a different shape clears its
queue, destroys exactly `bufC`, and stores the new shape; resizing it to
its own shape leaves the queue untouched. -/
theorem resize_clears_iff_shape_changes_witness :
    ((wv_buffer_pool_resize poolWithC 1280 720 5120 DRM_FORMAT_ARGB8888).1.queue = [] ∧
     (wv_buffer_pool_resize poolWithC 1280 720 5120 DRM_FORMAT_ARGB8888).2 = [bufC]) ∧
    (wv_buffer_pool_resize poolWithC 1280 720 5120 DRM_FORMAT_ARGB8888).1.width = 1280 ∧
    ((wv_buffer_pool_resize poolWithC 640 480 2560 DRM_FORMAT_ARGB8888).1.queue = [bufC] ∧
     (wv_buffer_pool_resize poolWithC 640 480 2560 DRM_FORMAT_ARGB8888).2 = []) :=
  ⟨(resize_clears_iff_shape_changes poolWithC 1280 720 5120
      DRM_FORMAT_ARGB8888).2.1 (by decide),
   (resize_clears_iff_shape_changes poolWithC 1280 720 5120
      DRM_FORMAT_ARGB8888).2.2.1,
   (resize_clears_iff_shape_changes poolWithC 640 480 2560
      DRM_FORMAT_ARGB8888).1 (by decide)⟩

/-- **C6.** Release appends a shape-matching buffer at the queue tail and
destroys a non-matching one, which then never enters the queue; the
operation is total (never fails), and afterwards — for any pool satisfying
the idle-queue invariant — the queue contains no buffer of a non-matching
shape. -/
theorem release_queues_matching_else_destroys (pool : WvBufferPool)
    (buffer : WvBuffer)
    (hinv : ∀ b ∈ pool.queue, bufferMatchesPool pool b) :
    (bufferMatchesPool pool buffer →
      (wv_buffer_pool_release pool buffer).1.queue = pool.queue ++ [buffer] ∧
      (wv_buffer_pool_release pool buffer).2 = []) ∧
    (¬bufferMatchesPool pool buffer →
      (wv_buffer_pool_release pool buffer).1.queue = pool.queue ∧
      (wv_buffer_pool_release pool buffer).2 = [buffer] ∧
      buffer ∉ (wv_buffer_pool_release pool buffer).1.queue) ∧
    ∀ b ∈ (wv_buffer_pool_release pool buffer).1.queue,
      bufferMatchesPool (wv_buffer_pool_release pool buffer).1 b := by
  by_cases hm : bufferMatchesPool pool buffer
  · refine ⟨fun _ => ?_, fun hn => absurd hm hn, ?_⟩
    · simp [wv_buffer_pool_release, hm]
    · intro b hb
      simp only [wv_buffer_pool_release, if_pos hm] at hb ⊢
      rw [bufferMatchesPool_update_queue]
      simp at hb
      rcases hb with h1 | h2
      · exact hinv b h1
      · subst h2; exact hm
  · refine ⟨fun h => absurd h hm, fun _ => ⟨?_, ?_, ?_⟩, ?_⟩
    · simp [wv_buffer_pool_release, hm]
    · simp [wv_buffer_pool_release, hm]
    · simp only [wv_buffer_pool_release, if_neg hm]
      intro hmem
      exact hm (hinv buffer hmem)
    · intro b hb
      simp only [wv_buffer_pool_release, if_neg hm] at hb ⊢
      exact hinv b hb

/-- Witness for C6 on `poolWithC`: the matching `bufA` is appended after
`bufC`, and every buffer in the resulting queue matches the shape. -/
theorem release_queues_matching_else_destroys_witness :
    ((wv_buffer_pool_release poolWithC bufA).1.queue = [bufC] ++ [bufA] ∧
     (wv_buffer_pool_release poolWithC bufA).2 = []) ∧
    bufferMatchesPool (wv_buffer_pool_release poolWithC bufA).1 bufA :=
  ⟨(release_queues_matching_else_destroys poolWithC bufA (by decide)).1
      (by decide),
   (release_queues_matching_else_destroys poolWithC bufA (by decide)).2.2
      bufA (by decide)⟩

/-- **C7 (code bug).** A real mapping failure makes `mmap` return
`MAP_FAILED` (`(void*)-1`), never `NULL`; the code's `if (!self->pixels)`
test therefore does not fire. Evaluated at a mapping failure under an
otherwise healthy environment, `wv_buffer_create` does not detect the
failure: it sails down the success path and returns a fully constructed
buffer whose `pixels` field is the `MAP_FAILED` pseudo-address — instead of
closing the descriptor and returning `none` with no buffer constructed, as
the claim (and the spec's intent) requires. -/
theorem mmap_failure_undetected :
    (wv_buffer_create { envAllOk with mmap_addr := MAP_FAILED }
        640 480 2560 DRM_FORMAT_ARGB8888).1 =
      some { width := 640, height := 480, stride := 2560,
             format := DRM_FORMAT_ARGB8888, size := 1228800,
             pixels := MAP_FAILED, image := 11, wl_buffer := 31 } ∧
    (wv_buffer_create { envAllOk with mmap_addr := MAP_FAILED }
        640 480 2560 DRM_FORMAT_ARGB8888).1 ≠ none :=
  ⟨by decide, by decide⟩

/-- **C8.** The protocol-format translation maps ARGB8888 and XRGB8888 to
the protocol's two distinct legacy constants and passes every other fourcc
through as its raw numeric code, while the independent rasterization table
has no passthrough default: it returns nothing for any fourcc outside its
eight entries. -/
theorem wl_shm_table_passthrough (fourcc : Nat) :
    fourcc_to_wl_shm DRM_FORMAT_ARGB8888 = WL_SHM_FORMAT_ARGB8888 ∧
    fourcc_to_wl_shm DRM_FORMAT_XRGB8888 = WL_SHM_FORMAT_XRGB8888 ∧
    WL_SHM_FORMAT_ARGB8888 ≠ WL_SHM_FORMAT_XRGB8888 ∧
    (fourcc ≠ DRM_FORMAT_ARGB8888 → fourcc ≠ DRM_FORMAT_XRGB8888 →
      fourcc_to_wl_shm fourcc = fourcc) ∧
    (fourcc ∉ supportedFourccs → fourcc_to_pixman_fmt fourcc = none) := by
  refine ⟨by decide, by decide, by decide, fun h1 h2 => ?_,
    fun h => pixman_fmt_none_of_unsupported fourcc h⟩
  simp [fourcc_to_wl_shm, h1, h2]

/-- Witness for C8: RGBA8888 passes through the protocol table unchanged,
and the fourcc `42` has no rasterization translation. -/
theorem wl_shm_table_passthrough_witness :
    fourcc_to_wl_shm DRM_FORMAT_RGBA8888 = DRM_FORMAT_RGBA8888 ∧
    fourcc_to_pixman_fmt 42 = none :=
  ⟨(wl_shm_table_passthrough DRM_FORMAT_RGBA8888).2.2.2.1 (by decide)
      (by decide),
   (wl_shm_table_passthrough 42).2.2.2.2 (by decide)⟩

/-- **C9.** When acquire runs on a pool with an empty idle queue and the
underlying buffer construction fails, the failure is propagated and the
pool state — the queue and all four target-shape fields — is left
completely unchanged. -/
theorem acquire_create_failure_pool_unchanged (env : Env)
    (pool : WvBufferPool) (hq : pool.queue = [])
    (hfail : (wv_buffer_create env pool.width pool.height pool.stride
        pool.format).1 = none) :
    (wv_buffer_pool_acquire env pool).1 = none ∧
    (wv_buffer_pool_acquire env pool).2.1 = pool := by
  simp only [wv_buffer_pool_acquire, hq]
  exact ⟨hfail, trivial⟩

/-- Witness for C9: a pool whose target format is the unsupported fourcc
`0`, so construction fails on the empty queue. -/
theorem acquire_create_failure_pool_unchanged_witness :
    (wv_buffer_pool_acquire envAllOk (wv_buffer_pool_create 1 1 1 0)).1 =
        none ∧
    (wv_buffer_pool_acquire envAllOk (wv_buffer_pool_create 1 1 1 0)).2.1 =
        wv_buffer_pool_create 1 1 1 0 :=
  acquire_create_failure_pool_unchanged envAllOk
    (wv_buffer_pool_create 1 1 1 0) rfl (by decide)

/-- **C10.** Neither `wv_buffer_create` nor `wv_buffer_pool_create`
validates geometry: for every integer width, height and stride — zero,
negative, or a stride smaller than `width * 4` included — and a supported
format, the values are stored verbatim and the byte size is
`height * stride` in wrap-around 32-bit signed machine arithmetic, with no
overflow or range check anywhere. -/
theorem create_no_geometry_validation (env : Env)
    (width height stride : Int) (fourcc pf : Nat)
    (hfmt : fourcc_to_pixman_fmt fourcc = some pf)
    (hcalloc : env.calloc_ok = true)
    (hfd : 0 ≤ env.shm_fd (wrap32 (height * stride)))
    (hmmap : env.mmap_addr ≠ 0) (himg : env.pixman_image ≠ 0)
    (hpool : env.wl_pool ≠ 0) (hbuf : env.wl_buf ≠ 0) :
    (wv_buffer_create env width height stride fourcc).1 =
      some { width := width, height := height, stride := stride,
             format := fourcc, size := wrap32 (height * stride),
             pixels := env.mmap_addr, image := env.pixman_image,
             wl_buffer := env.wl_buf } ∧
    (wv_buffer_pool_create width height stride fourcc).width = width ∧
    (wv_buffer_pool_create width height stride fourcc).height = height ∧
    (wv_buffer_pool_create width height stride fourcc).stride = stride ∧
    (wv_buffer_pool_create width height stride fourcc).format = fourcc := by
  have hnl : ¬(env.shm_fd (wrap32 (height * stride)) < 0) := by omega
  refine ⟨?_, rfl, rfl, rfl, rfl⟩
  simp [wv_buffer_create, hfmt, hcalloc, hnl, hmmap, himg, hpool, hbuf]

/-- Witness for C10 at a degenerate geometry: negative height and a stride
far below `width * 4` are accepted and stored verbatim, with a negative
computed size. -/
theorem create_no_geometry_validation_witness :
    (wv_buffer_create envAllOk 640 (-480) 16 DRM_FORMAT_ARGB8888).1 =
      some { width := 640, height := -480, stride := 16,
             format := DRM_FORMAT_ARGB8888, size := wrap32 ((-480) * 16),
             pixels := envAllOk.mmap_addr, image := envAllOk.pixman_image,
             wl_buffer := envAllOk.wl_buf } ∧
    (wv_buffer_pool_create 640 (-480) 16 DRM_FORMAT_ARGB8888).width = 640 ∧
    (wv_buffer_pool_create 640 (-480) 16 DRM_FORMAT_ARGB8888).height = -480 ∧
    (wv_buffer_pool_create 640 (-480) 16 DRM_FORMAT_ARGB8888).stride = 16 ∧
    (wv_buffer_pool_create 640 (-480) 16 DRM_FORMAT_ARGB8888).format =
        DRM_FORMAT_ARGB8888 :=
  create_no_geometry_validation envAllOk 640 (-480) 16 DRM_FORMAT_ARGB8888
    PIXMAN_a8r8g8b8 (by decide) rfl (by decide) (by decide) (by decide)
    (by decide) (by decide)
